import Mathlib

/-!
Verification of the content-moderation decision engine in
`src/profanity_check.py` (ai-developers-ng/ai-profanity-check).

The Python module is shallowly embedded: each dict produced by the source is
a Lean structure whose fields are the dict's keys, Python floats become `ℚ`,
Python string enums stay `String` (the source compares and stores plain
strings and uses `dict.get` defaults, which the embeddings reproduce), and
fallible steps are `Except`/`Option` values.  Outputs of external libraries
(the sklearn classifier, better-profanity, the VADER lexicon, Bedrock, the
database) enter the model as parameters of the functions that consume them.
-/

/-- Output dict of `_ml_profanity_analysis` (src lines 329-346): the fields
the rest of the pipeline reads.  `prob` and `predictedProfane` are the raw
outputs of the external `alt_profanity_check` model. -/
structure MlResult where
  is_profane : Bool
  profanity_probability : ℚ
  confidence : ℚ
deriving DecidableEq, Repr

/-- `_ml_profanity_analysis` (src lines 329-346): packages the classifier's
probability and prediction; confidence = prob if profane else 1 - prob. -/
def mlProfanityAnalysis (prob : ℚ) (predictedProfane : Bool) : MlResult :=
  { is_profane := predictedProfane
    profanity_probability := prob
    confidence := if predictedProfane then prob else 1 - prob }

/-- Output dict of `_dictionary_profanity_analysis` (src lines 348-366);
`has_profanity` and `flagged_words` come from the external better-profanity
library and `_extract_flagged_words`. -/
structure DictResult where
  has_profanity : Bool
  flagged_words : List String
deriving DecidableEq, Repr

/-- `word_count` key of the dictionary result: `len(flagged_words)`
(src line 358). -/
def DictResult.word_count (d : DictResult) : Nat :=
  d.flagged_words.length

/-- Output dict of `_sentiment_analysis` (src lines 368-393). -/
structure SentimentResult where
  sentiment : String
  compound_score : ℚ
  positive_score : ℚ
  negative_score : ℚ
  neutral_score : ℚ
  intensity : ℚ
deriving DecidableEq, Repr

/-- `_sentiment_analysis` (src lines 368-393) on the VADER polarity scores:
label POSITIVE when compound ≥ 0.05, NEGATIVE when compound ≤ -0.05, else
NEUTRAL; intensity = |compound|. -/
def sentimentAnalysis (compound pos neg neu : ℚ) : SentimentResult :=
  { sentiment :=
      if compound ≥ 1/20 then "POSITIVE"
      else if compound ≤ -(1/20) then "NEGATIVE"
      else "NEUTRAL"
    compound_score := compound
    positive_score := pos
    negative_score := neg
    neutral_score := neu
    intensity := |compound| }

/-- Output dict of `_analyze_text_stats` (src lines 310-327). -/
structure TextStats where
  char_count : Nat
  word_count : Nat
  sentence_count : Nat
  avg_word_length : ℚ
  uppercase_ratio : ℚ
  exclamation_count : Nat
  question_count : Nat
deriving DecidableEq, Repr

/-- Python text is modelled as its character sequence (`str` is a sequence
of characters); `String.toList` of a Lean literal gives the same value. -/
abbrev PyStr := List Char

/-- Splitting a character sequence at every character satisfying `p`:
the common core of Python `str.split` and single-class `re.split`. -/
def splitOnPred (p : Char → Bool) : PyStr → List PyStr
  | [] => [[]]
  | c :: cs =>
      match splitOnPred p cs with
      | [] => [[]]
      | w :: ws => if p c then [] :: w :: ws else (c :: w) :: ws

/-- Python `s.strip()`: drop leading and trailing whitespace. -/
def pyStrip (s : PyStr) : PyStr :=
  ((s.dropWhile Char.isWhitespace).reverse.dropWhile Char.isWhitespace).reverse

/-- Python `text.split()` (src line 313): split on whitespace, dropping the
empty pieces (splitting at maximal whitespace runs yields exactly the
non-empty pieces of the single-character splitting). -/
def pyWords (text : PyStr) : List PyStr :=
  (splitOnPred Char.isWhitespace text).filter (fun w => w ≠ [])

/-- Python `re.split(r'[.!?]+', text)` (src line 314).  Splitting at every
single delimiter instead of at maximal runs inserts extra empty pieces
between adjacent delimiters; the source only counts the pieces that are
non-blank after `strip()`, on which the two splittings agree. -/
def pySentences (text : PyStr) : List PyStr :=
  splitOnPred (fun c => c = '.' || c = '!' || c = '?') text

/-- `_analyze_text_stats` (src lines 310-327).  The two divisions are
guarded exactly as in the source: `... / len(words) if words else 0` and
`... / len(text) if text else 0` (Python truthiness of a list/str is
non-emptiness). -/
def analyzeTextStats (text : PyStr) : TextStats :=
  let words := pyWords text
  let sentences := pySentences text
  { char_count := text.length
    word_count := words.length
    sentence_count := (sentences.filter (fun s => pyStrip s ≠ [])).length
    avg_word_length :=
      if words ≠ [] then ((words.map List.length).sum : ℚ) / (words.length : ℚ) else 0
    uppercase_ratio :=
      if text ≠ [] then ((text.filter Char.isUpper).length : ℚ) / (text.length : ℚ)
      else 0
    exclamation_count := (text.filter (fun c => c = '!')).length
    question_count := (text.filter (fun c => c = '?')).length }

/-- Division that records rather than defaults on a zero denominator; used to
state that `_analyze_text_stats` never divides by zero. -/
def checkedDiv (a b : ℚ) : Option ℚ :=
  if b = 0 then none else some (a / b)

/-- `_analyze_text_stats` with every division routed through `checkedDiv`:
it returns `none` exactly when the source would evaluate a division whose
denominator is zero. -/
def analyzeTextStatsChecked (text : PyStr) : Option TextStats := do
  let words := pyWords text
  let sentences := pySentences text
  let avg ←
    if words ≠ [] then checkedDiv ((words.map List.length).sum : ℚ) (words.length : ℚ)
    else some 0
  let upper ←
    if text ≠ [] then
      checkedDiv ((text.filter Char.isUpper).length : ℚ) (text.length : ℚ)
    else some 0
  some
    { char_count := text.length
      word_count := words.length
      sentence_count := (sentences.filter (fun s => pyStrip s ≠ [])).length
      avg_word_length := avg
      uppercase_ratio := upper
      exclamation_count := (text.filter (fun c => c = '!')).length
      question_count := (text.filter (fun c => c = '?')).length }

/-- The `assessment` dict built by `_calculate_overall_assessment`
(src lines 415-423 initialise it; 470-490 fill it in). -/
structure Assessment where
  should_flag : Bool
  confidence_score : ℚ
  severity_level : String
  primary_concerns : List String
  flagged_by_methods : List String
  recommendation : String
  requires_ai_analysis : Bool
deriving DecidableEq, Repr

/-- The `total_score` accumulated by `_calculate_overall_assessment`
(src lines 425-468): ML probability ×4 when profane, dictionary penalty
min(word_count×1.5, 3), negative-sentiment terms (intensity×2 above 0.6,
intensity above 0.3), +0.5 for uppercase_ratio > 0.3, +0.3 for more than 3
exclamation marks. -/
def totalScore (ml : MlResult) (dict : DictResult) (sent : SentimentResult)
    (stats : TextStats) : ℚ :=
  (if ml.is_profane then ml.profanity_probability * 4 else 0)
  + (if dict.has_profanity then min ((dict.word_count : ℚ) * (3/2)) 3 else 0)
  + (if sent.sentiment = "NEGATIVE" then
      (if sent.intensity > 3/5 then sent.intensity * 2
       else if sent.intensity > 3/10 then sent.intensity else 0)
     else 0)
  + (if stats.uppercase_ratio > 3/10 then 1/2 else 0)
  + (if stats.exclamation_count > 3 then 3/10 else 0)

/-- The `flagged_methods` list accumulated alongside `total_score`
(src lines 425-464), in the source's append order. -/
def flaggedMethods (ml : MlResult) (dict : DictResult) (sent : SentimentResult)
    (stats : TextStats) : List String :=
  (if ml.is_profane then ["ML_PROFANITY"] else [])
  ++ (if dict.has_profanity then ["DICTIONARY_PROFANITY"] else [])
  ++ (if sent.sentiment = "NEGATIVE" then
       (if sent.intensity > 3/5 then ["STRONG_NEGATIVE_SENTIMENT"]
        else if sent.intensity > 3/10 then ["MODERATE_NEGATIVE_SENTIMENT"] else [])
      else [])
  ++ (if stats.uppercase_ratio > 3/10 then ["EXCESSIVE_CAPS"] else [])

/-- The `concerns` list accumulated alongside `total_score` (src lines
425-468).  The source interpolates scores into the messages with f-strings;
the numeric formatting is elided here, the messages and their order are
kept. -/
def primaryConcerns (ml : MlResult) (dict : DictResult) (sent : SentimentResult)
    (stats : TextStats) : List String :=
  (if ml.is_profane then ["ML detected profanity"] else [])
  ++ (if dict.has_profanity then ["Dictionary flagged word(s)"] else [])
  ++ (if sent.sentiment = "NEGATIVE" then
       (if sent.intensity > 3/5 then ["Strong negative sentiment"]
        else if sent.intensity > 3/10 then ["Moderate negative sentiment"] else [])
      else [])
  ++ (if stats.uppercase_ratio > 3/10 then ["Excessive capital letters detected"] else [])
  ++ (if stats.exclamation_count > 3 then ["Multiple exclamation marks"] else [])

/-- `_should_use_ai_analysis` (src lines 503-526): any of confidence > 0.7,
at least two triggered methods, confidence in [0.3, 0.7], or
STRONG_NEGATIVE_SENTIMENT as the sole triggered method. -/
def shouldUseAiAnalysis (a : Assessment) : Bool :=
  decide (a.confidence_score > 7/10)
  || decide (a.flagged_by_methods.length ≥ 2)
  || (decide (3/10 ≤ a.confidence_score) && decide (a.confidence_score ≤ 7/10))
  || (a.flagged_by_methods.contains "STRONG_NEGATIVE_SENTIMENT"
      && decide (a.flagged_by_methods.length = 1))

/-- The body of the `try` block of `_calculate_overall_assessment`
(src lines 414-492): the defaults LOW/APPROVE/should_flag=False are
overwritten only inside `if total_score >= self.severity_threshold`;
confidence_score = min(total_score/6, 1); requires_ai_analysis is computed
from the assessment built so far. -/
def calculateOverallAssessment (ml : MlResult) (dict : DictResult)
    (sent : SentimentResult) (stats : TextStats) (severity_threshold : ℚ) :
    Assessment :=
  let score := totalScore ml dict sent stats
  let base : Assessment :=
    { should_flag := decide (score ≥ severity_threshold)
      confidence_score := min (score / 6) 1
      severity_level :=
        if score ≥ severity_threshold then
          (if score ≥ 5 then "CRITICAL" else if score ≥ 7/2 then "HIGH" else "MEDIUM")
        else "LOW"
      primary_concerns := primaryConcerns ml dict sent stats
      flagged_by_methods := flaggedMethods ml dict sent stats
      recommendation :=
        if score ≥ severity_threshold then
          (if score ≥ 5 then "ESCALATE" else if score ≥ 7/2 then "FLAG" else "REVIEW")
        else "APPROVE"
      requires_ai_analysis := false }
  { base with requires_ai_analysis := shouldUseAiAnalysis base }

/-- `_severity_rank` (src lines 737-740): `{'LOW':1,'MEDIUM':2,'HIGH':3,
'CRITICAL':4}.get(severity, 1)`. -/
def severityRank (severity : String) : Nat :=
  if severity = "LOW" then 1
  else if severity = "MEDIUM" then 2
  else if severity = "HIGH" then 3
  else if severity = "CRITICAL" then 4
  else 1

/-- `_map_ai_urgency_to_severity` (src lines 727-735): identity on the four
levels, default 'LOW' for anything else. -/
def mapAiUrgencyToSeverity (urgency : String) : String :=
  if urgency = "LOW" then "LOW"
  else if urgency = "MEDIUM" then "MEDIUM"
  else if urgency = "HIGH" then "HIGH"
  else if urgency = "CRITICAL" then "CRITICAL"
  else "LOW"

/-- The `ai_analysis` JSON object extracted from the Bedrock response
(src lines 583-590 and the prompt's schema, lines 555-565). -/
structure AiAnalysis where
  toxicity_score : ℚ
  threat_level : String
  content_issues : List String
  urgency : String
  recommended_action : String
  summary : String
  confidence : ℚ
  requires_human_review : Bool
deriving DecidableEq, Repr

/-- Result dict of `analyze_with_bedrock` (src lines 528-597): either
`{'success': True, 'ai_analysis': ...}` or `{'success': False, 'error': ...}`
(any exception or unparsable response is caught and returned as the failure
dict). -/
inductive AiCallResult where
  | success (ai_analysis : AiAnalysis)
  | failure (error : String)
deriving DecidableEq, Repr

/-- The `final_decision` dicts built by `_combine_library_and_ai_results`
(src lines 688-696), the libraries-only branch of `enhanced_analysis`
(src lines 659-667) and `_ai_to_final_decision` (src lines 1081-1099).
`confidence` is absent from the `ai_error_fallback` dict in the source;
consumers read it via `.get('confidence', 0)` (src line 999), so that dict
is embedded with confidence 0.  `ai_insights` stores the judgment the
override drew on (the source stores a field-subset of it, src lines
711-717). -/
structure FinalDecision where
  should_flag : Bool
  severity_level : String
  confidence : ℚ
  recommendation : String
  primary_method : String
  reasoning : List String
  detection_methods : List String
  ai_insights : Option AiAnalysis
  error : Option String
deriving DecidableEq, Repr

/-- `_combine_library_and_ai_results` (src lines 685-725): start from the
library assessment's values tagged 'combined_analysis'; when the AI call
succeeded and its urgency maps to a strictly higher severity rank, override
severity, recommendation and confidence (max of the two) and append the
explanatory concern. -/
def combineLibraryAndAiResults (A : Assessment) (ai : AiCallResult) : FinalDecision :=
  let base : FinalDecision :=
    { should_flag := A.should_flag
      severity_level := A.severity_level
      confidence := A.confidence_score
      recommendation := A.recommendation
      primary_method := "combined_analysis"
      reasoning := A.primary_concerns
      detection_methods := A.flagged_by_methods
      ai_insights := none
      error := none }
  match ai with
  | .failure _ => base
  | .success d =>
      let aiSeverity := mapAiUrgencyToSeverity d.urgency
      if severityRank aiSeverity > severityRank base.severity_level then
        { base with
            severity_level := aiSeverity
            recommendation := d.recommended_action
            confidence := max base.confidence d.confidence
            ai_insights := some d
            reasoning := base.reasoning ++ ["AI analysis enhanced severity assessment"] }
      else base

/-- The decision logic of `enhanced_analysis` (src lines 643-669), given the
aggregate assessment of the library analyses and the outcome the Bedrock
call would have (the call is only made when `requires_ai_analysis`): merge
when escalation is required, otherwise the libraries-only decision tagged
'libraries_only'. -/
def enhancedAnalysis (A : Assessment) (ai : AiCallResult) : FinalDecision :=
  if A.requires_ai_analysis then
    combineLibraryAndAiResults A ai
  else
    { should_flag := A.should_flag
      severity_level := A.severity_level
      confidence := A.confidence_score
      recommendation := A.recommendation
      primary_method := "libraries_only"
      reasoning := A.primary_concerns
      detection_methods := A.flagged_by_methods
      ai_insights := none
      error := none }

/-- `_ai_to_final_decision` as written at src lines 1078-1099: fail-safe
HIGH/REVIEW tagged 'ai_error_fallback' on an unsuccessful AI call, otherwise
the judgment's own values tagged 'ai_only' with should_flag exactly when
recommended_action is FLAG, ESCALATE or REVIEW.  (This def is unreachable in
the source: see `forcedModeRecordPipeline`.) -/
def aiToFinalDecision (ai : AiCallResult) : FinalDecision :=
  match ai with
  | .failure e =>
      { should_flag := true
        severity_level := "HIGH"
        confidence := 0
        recommendation := "REVIEW"
        primary_method := "ai_error_fallback"
        reasoning := []
        detection_methods := []
        ai_insights := none
        error := some e }
  | .success d =>
      { should_flag := d.recommended_action ∈ ["FLAG", "ESCALATE", "REVIEW"]
        severity_level := mapAiUrgencyToSeverity d.urgency
        confidence := d.confidence
        recommendation := d.recommended_action
        primary_method := "ai_only"
        reasoning := [d.summary]
        detection_methods := []
        ai_insights := some d
        error := none }

/-- How one record's pipeline run ends, as dispatched by the per-record loop
of `lambda_handler` (src lines 932-1019): `extractionFailed` is
`process_complaint_from_db` returning None (line 937), `decided d` is the
pipeline completing with a final decision (including the persistence write),
and `raised m` is any exception escaping the record's pipeline into the
per-record `except` (line 1003). -/
inductive PipelineResult where
  | extractionFailed
  | decided (d : FinalDecision)
  | raised (msg : String)
deriving DecidableEq, Repr

/-- The status write `update_moderation_status` performs for one record:
the status string, the `retry_count` carried in the result payload (only the
retry payload has one, src line 1014), and the error message in the payload. -/
structure StatusWrite where
  status : String
  retry_count : Option Nat
  error : Option String
deriving DecidableEq, Repr

/-- The per-record dispatch of `lambda_handler` (src lines 932-1019):
extraction failure writes 'failed_processing' with the fixed error message
(lines 938-945); a completed decision writes 'flagged' or 'approved' by
`should_flag` (line 983); an exception writes 'retry' with
`db_record.get('retry_count', 0) + 1` and the captured message (lines
1009-1017).  `recRetryCount` is the fetched record's `retry_count` value
(absent from the SELECT of lines 133-154, hence `none` for real fetches). -/
def handleRecord (recRetryCount : Option Nat) : PipelineResult → StatusWrite
  | .extractionFailed =>
      { status := "failed_processing"
        retry_count := none
        error := some "Failed to convert XML to JSON or extract complaint text" }
  | .decided d =>
      { status := if d.should_flag then "flagged" else "approved"
        retry_count := none
        error := none }
  | .raised m =>
      { status := "retry"
        retry_count := some (recRetryCount.getD 0 + 1)
        error := some m }

/-- The `for db_record in complaints` loop (src lines 932-1019): every
record's outcome is handled in turn; an outcome that raised does not stop
the traversal because the `except` swallows it and the loop continues. -/
def processBatch (records : List (Option Nat × PipelineResult)) : List StatusWrite :=
  records.map (fun r => handleRecord r.1 r.2)

/-- The message of the exception the forced-secondary branch raises; see
`forcedModeRecordPipeline`. -/
def attributeErrorMsg : String :=
  "AttributeError: 'ProductionModerationService' object has no attribute '_ai_to_final_decision'"

/-- The forced-secondary branch of the per-record loop (src lines 953-964):
after `analyze_with_bedrock` returns, line 962 calls
`moderation_service._ai_to_final_decision(ai_results)`.  The class
`ProductionModerationService` (src lines 84-891) defines no such method —
the `def _ai_to_final_decision` at line 1078 sits inside `lambda_handler`,
after both of its `return` statements — so the attribute access raises
`AttributeError` whatever the Bedrock outcome `ai` was, and the record's
pipeline ends in the per-record `except`. -/
def forcedModeRecordPipeline (_ai : AiCallResult) : PipelineResult :=
  .raised attributeErrorMsg

/-- The JSON dict `xml_to_json_converter` builds on success (src lines
182-196): a fixed shape with these string fields (missing XML elements
become ''). -/
structure JsonData where
  complaint_text : PyStr
  user_name : PyStr
  email : PyStr
  subject : PyStr
  description : PyStr
  priority : PyStr
  category : PyStr
deriving DecidableEq, Repr

/-- `_extract_complaint_text` (src lines 250-276) on the converter's fixed
shape: the candidate paths `['complaint_text']`,
`['complaint_details','description']`, `['complaint_details','subject']`
are tried in order and the first whose stripped value is non-empty is
returned stripped; the remaining paths (`['user_details','message']`,
`['description']`, `['message']`, `['content']`) never hit a string in that
shape, so the fallback is ''. -/
def extractComplaintText (j : JsonData) : PyStr :=
  if pyStrip j.complaint_text ≠ [] then pyStrip j.complaint_text
  else if pyStrip j.description ≠ [] then pyStrip j.description
  else if pyStrip j.subject ≠ [] then pyStrip j.subject
  else []

/-- The fields of the processed-complaint dict (src lines 233-242) the
claims depend on. -/
structure ProcessedComplaint where
  complaint_text : PyStr
deriving DecidableEq, Repr

/-- `process_complaint_from_db` (src lines 215-248), taking the output of
`xml_to_json_converter` on the record's XML (`none` = conversion failed):
return None when conversion failed, or when the extracted text is falsy or
its stripped length is below 5 (src line 228). -/
def processComplaintFromDb (jsonData : Option JsonData) : Option ProcessedComplaint :=
  match jsonData with
  | none => none
  | some j =>
      let complaintText := extractComplaintText j
      if complaintText = [] ∨ (pyStrip complaintText).length < 5 then none
      else some { complaint_text := complaintText }

/-- The `except` fallback of `_calculate_overall_assessment` (src lines
494-501) returns a dict with only these keys. -/
structure FailSafeAssessment where
  should_flag : Bool
  severity_level : String
  recommendation : String
  error : String
deriving DecidableEq, Repr

/-- `_calculate_overall_assessment` including its exception handler
(src lines 412-501): the `try` body on well-formed inputs, or the fixed
fail-safe dict `{'should_flag': True, 'severity_level': 'HIGH',
'recommendation': 'REVIEW', 'error': ...}` when the internal computation
raised. -/
inductive AssessmentOutcome where
  | ok (a : Assessment)
  | failed (f : FailSafeAssessment)
deriving DecidableEq, Repr

/-- The guarded `_calculate_overall_assessment` (src lines 412-501): the
internal computation either yields the analysis inputs (the `try` path) or
an exception message (the `except` path), and the handler maps the latter to
the fixed fail-safe dict. -/
def calculateOverallAssessmentGuarded
    (internal : Except String (MlResult × DictResult × SentimentResult × TextStats))
    (severity_threshold : ℚ) : AssessmentOutcome :=
  match internal with
  | .ok (ml, dict, sent, stats) =>
      .ok (calculateOverallAssessment ml dict sent stats severity_threshold)
  | .error e =>
      .failed { should_flag := true, severity_level := "HIGH",
                recommendation := "REVIEW", error := e }

/-- Example inputs of spec Example 3: no profanity hit by either detector,
VADER compound -0.8 (NEGATIVE, intensity 0.8, sole trigger
STRONG_NEGATIVE_SENTIMENT, total_score 1.6), empty-text statistics,
default severity threshold 3. -/
def exMl : MlResult := mlProfanityAnalysis 0 false

def exDict : DictResult := { has_profanity := false, flagged_words := [] }

def exSent : SentimentResult := sentimentAnalysis (-(4/5)) 0 (4/5) (1/5)

def exStats : TextStats := analyzeTextStats []

def exAssessment : Assessment :=
  calculateOverallAssessment exMl exDict exSent exStats 3

/-- Inputs refuting C4's severity bands at a configurable threshold of 4:
the ML classifier alone fires with probability 0.9, total_score 3.6. -/
def cexMl : MlResult := mlProfanityAnalysis (9/10) true

def cexSent : SentimentResult := sentimentAnalysis 0 0 0 1

/-! ## Theorems -/

/-- C9: the TextStats extractor returns all-zero statistics on the empty
text, and for every input text the average-word-length and uppercase-ratio
divisions are guarded so no division by zero occurs (the checked variant,
which fails on any zero-denominator division, always succeeds and agrees
with the extractor). -/
theorem text_stats_empty_zero_and_no_division_by_zero :
    analyzeTextStats [] =
      { char_count := 0, word_count := 0, sentence_count := 0, avg_word_length := 0,
        uppercase_ratio := 0, exclamation_count := 0, question_count := 0 } ∧
    ∀ text : PyStr, analyzeTextStatsChecked text = some (analyzeTextStats text) := by
  refine ⟨rfl, fun text => ?_⟩
  by_cases ht : text = []
  · subst ht; rfl
  · simp only [analyzeTextStatsChecked, analyzeTextStats, checkedDiv]
    by_cases hw : pyWords text = [] <;>
      simp [hw, ht, Option.bind, Nat.cast_eq_zero, List.length_eq_zero]

/-- C10: `process_complaint_from_db` yields an unprocessable result (None)
exactly when XML conversion failed or the extracted complaint text, after
stripping whitespace, is shorter than 5 characters: the spec's "minimum
length" is the concrete constant 5. -/
theorem unprocessable_iff_conversion_failed_or_text_below_5 :
    processComplaintFromDb none = none ∧
    ∀ j : JsonData,
      (processComplaintFromDb (some j) = none ↔
        (pyStrip (extractComplaintText j)).length < 5) := by
  refine ⟨rfl, fun j => ?_⟩
  simp only [processComplaintFromDb]
  by_cases h0 : extractComplaintText j = []
  · simp [h0, pyStrip]
  · by_cases h5 : (pyStrip (extractComplaintText j)).length < 5 <;> simp [h0, h5]

/-- C7: on internal failure the aggregator returns the fixed fail-safe
assessment — should_flag true, severity HIGH, recommendation REVIEW — and in
particular never an APPROVE recommendation. -/
theorem aggregation_failure_returns_fail_safe :
    ∀ (e : String) (t : ℚ),
      calculateOverallAssessmentGuarded (.error e) t =
        .failed { should_flag := true, severity_level := "HIGH",
                  recommendation := "REVIEW", error := e } ∧
      ("REVIEW" : String) ≠ "APPROVE" :=
  fun _ _ => ⟨rfl, by decide⟩


theorem exAssessment_eq :
    exAssessment =
      { should_flag := false, confidence_score := 4/15, severity_level := "LOW",
        primary_concerns := ["Strong negative sentiment"],
        flagged_by_methods := ["STRONG_NEGATIVE_SENTIMENT"],
        recommendation := "APPROVE", requires_ai_analysis := true } := by
  norm_num [exAssessment, calculateOverallAssessment, totalScore, flaggedMethods,
    primaryConcerns, shouldUseAiAnalysis, exMl, exDict, exSent, exStats,
    mlProfanityAnalysis, sentimentAnalysis, analyzeTextStats, DictResult.word_count,
    pyWords, pySentences, splitOnPred, pyStrip, abs_neg, abs_of_nonneg]

/-- C5: requires_secondary_analysis holds iff confidence > 0.7, or at least
two triggered methods, or confidence in [0.3, 0.7], or
STRONG_NEGATIVE_SENTIMENT is the sole triggered method; and on the
sole-strong-negative-sentiment example with total_score 1.6 it holds even
though the confidence 4/15 is below 0.3. -/
theorem requires_secondary_iff_and_sole_sentiment_edge :
    (∀ a : Assessment,
      shouldUseAiAnalysis a = true ↔
        (a.confidence_score > 7/10 ∨ a.flagged_by_methods.length ≥ 2 ∨
         (3/10 ≤ a.confidence_score ∧ a.confidence_score ≤ 7/10) ∨
         ("STRONG_NEGATIVE_SENTIMENT" ∈ a.flagged_by_methods ∧
          a.flagged_by_methods.length = 1))) ∧
    exAssessment.requires_ai_analysis = true ∧
    exAssessment.confidence_score < 3/10 ∧
    exAssessment.flagged_by_methods = ["STRONG_NEGATIVE_SENTIMENT"] := by
  refine ⟨fun a => ?_, ?_, ?_, ?_⟩
  · simp [shouldUseAiAnalysis, List.elem_iff, or_assoc]
  · rw [exAssessment_eq]
  · rw [exAssessment_eq]; norm_num
  · rw [exAssessment_eq]

/-- C1: the merged decision's severity rank is ≥ the assessment's for every
secondary outcome; on a successful judgment the merger overrides severity,
recommendation and confidence (= max of the two) and appends the explanatory
concern exactly when the judgment's urgency maps to a strictly higher
severity rank, and otherwise — including on a failed call — the assessment's
severity, recommendation and confidence are kept unchanged. -/
theorem merge_monotonic_and_override_exactly_on_higher_rank :
    (∀ (A : Assessment) (r : AiCallResult),
      severityRank A.severity_level ≤
        severityRank (combineLibraryAndAiResults A r).severity_level) ∧
    (∀ (A : Assessment) (j : AiAnalysis),
      if severityRank A.severity_level <
          severityRank (mapAiUrgencyToSeverity j.urgency) then
        (combineLibraryAndAiResults A (.success j)).severity_level =
            mapAiUrgencyToSeverity j.urgency ∧
        (combineLibraryAndAiResults A (.success j)).recommendation =
            j.recommended_action ∧
        (combineLibraryAndAiResults A (.success j)).confidence =
            max A.confidence_score j.confidence ∧
        (combineLibraryAndAiResults A (.success j)).reasoning =
            A.primary_concerns ++ ["AI analysis enhanced severity assessment"]
      else
        (combineLibraryAndAiResults A (.success j)).severity_level =
            A.severity_level ∧
        (combineLibraryAndAiResults A (.success j)).recommendation =
            A.recommendation ∧
        (combineLibraryAndAiResults A (.success j)).confidence =
            A.confidence_score ∧
        (combineLibraryAndAiResults A (.success j)).reasoning =
            A.primary_concerns) ∧
    (∀ (A : Assessment) (e : String),
      (combineLibraryAndAiResults A (.failure e)).severity_level =
          A.severity_level ∧
      (combineLibraryAndAiResults A (.failure e)).recommendation =
          A.recommendation ∧
      (combineLibraryAndAiResults A (.failure e)).confidence =
          A.confidence_score) := by
  refine ⟨fun A r => ?_, fun A j => ?_, fun A e => by simp [combineLibraryAndAiResults]⟩
  · cases r with
    | failure e => simp [combineLibraryAndAiResults]
    | success j =>
        simp only [combineLibraryAndAiResults]
        split_ifs with h
        · exact le_of_lt h
        · exact le_refl _
  · by_cases h : severityRank A.severity_level <
        severityRank (mapAiUrgencyToSeverity j.urgency) <;>
      simp [combineLibraryAndAiResults, h]

/-- C2 counterexample: Example 3's aggregate assessment requires secondary
analysis, yet when the Bedrock call fails the final decision's provenance
tag is not the claimed "libraries_only" (it is "combined_analysis"). -/
theorem secondary_failure_provenance_counterexample :
    exAssessment.requires_ai_analysis = true ∧
    (enhancedAnalysis exAssessment (.failure "timeout")).primary_method ≠
      "libraries_only" ∧
    (enhancedAnalysis exAssessment (.failure "timeout")).primary_method =
      "combined_analysis" := by
  refine ⟨by rw [exAssessment_eq], ?_, ?_⟩ <;>
    rw [show enhancedAnalysis exAssessment (.failure "timeout") =
          combineLibraryAndAiResults exAssessment (.failure "timeout") by
        simp [enhancedAnalysis, exAssessment_eq]] <;>
    simp [combineLibraryAndAiResults]

/-- C2 amended: when the aggregate assessment requires secondary analysis
and the Bedrock call fails, the final decision keeps the assessment's
should_flag, severity, confidence and recommendation unchanged and no
exception propagates (the merge is total), but its provenance tag is
"combined_analysis", not "libraries_only". -/
theorem secondary_failure_keeps_library_decision (A : Assessment) (e : String)
    (hreq : A.requires_ai_analysis = true) :
    (enhancedAnalysis A (.failure e)).should_flag = A.should_flag ∧
    (enhancedAnalysis A (.failure e)).severity_level = A.severity_level ∧
    (enhancedAnalysis A (.failure e)).confidence = A.confidence_score ∧
    (enhancedAnalysis A (.failure e)).recommendation = A.recommendation ∧
    (enhancedAnalysis A (.failure e)).primary_method = "combined_analysis" := by
  simp [enhancedAnalysis, hreq, combineLibraryAndAiResults]

/-- Witness for the amended C2 theorem at Example 3's assessment and a
timed-out secondary call. -/
theorem secondary_failure_keeps_library_decision_witness :
    (enhancedAnalysis exAssessment (.failure "timeout")).severity_level =
      exAssessment.severity_level ∧
    (enhancedAnalysis exAssessment (.failure "timeout")).primary_method =
      "combined_analysis" :=
  ⟨(secondary_failure_keeps_library_decision exAssessment "timeout"
      (by rw [exAssessment_eq])).2.1,
   (secondary_failure_keeps_library_decision exAssessment "timeout"
      (by rw [exAssessment_eq])).2.2.2.2⟩

/-- C3 (code bug): in forced-secondary mode the per-record pipeline always
raises — `_ai_to_final_decision` is not a method of the service class, its
def sits unreachably inside `lambda_handler` — so whatever the Bedrock
outcome, the record is written 'retry' and no final decision tagged
"ai_only"/"ai_error_fallback" is ever produced; the orphaned function body
itself behaves exactly as the claim states. -/
theorem forced_mode_attribute_error_and_orphan_intent :
    (∀ (ai : AiCallResult) (rc : Option Nat),
      handleRecord rc (forcedModeRecordPipeline ai) =
        { status := "retry", retry_count := some (rc.getD 0 + 1),
          error := some attributeErrorMsg } ∧
      ∀ d : FinalDecision, forcedModeRecordPipeline ai ≠ .decided d) ∧
    (∀ j : AiAnalysis,
      (aiToFinalDecision (.success j)).primary_method = "ai_only" ∧
      (aiToFinalDecision (.success j)).should_flag =
        decide (j.recommended_action ∈ ["FLAG", "ESCALATE", "REVIEW"])) ∧
    (∀ e : String,
      aiToFinalDecision (.failure e) =
        { should_flag := true, severity_level := "HIGH", confidence := 0,
          recommendation := "REVIEW", primary_method := "ai_error_fallback",
          reasoning := [], detection_methods := [], ai_insights := none,
          error := some e }) := by
  refine ⟨fun ai rc => ⟨rfl, fun d => by simp [forcedModeRecordPipeline]⟩,
    fun j => ⟨rfl, rfl⟩, fun e => rfl⟩

/-- C6: FAILED_PROCESSING is written exactly for extraction failure and such
a record is not marked for retry; any other unhandled per-record error is
written 'retry' with the incremented retry counter and the captured message;
and the batch loop handles every record (an error never truncates the
traversal). -/
theorem failed_processing_only_extraction_and_error_isolation :
    (∀ (rc : Option Nat) (res : PipelineResult),
      (handleRecord rc res).status = "failed_processing" ↔
        res = .extractionFailed) ∧
    (∀ rc : Option Nat,
      (handleRecord rc .extractionFailed).status ≠ "retry" ∧
      (handleRecord rc .extractionFailed).retry_count = none) ∧
    (∀ (rc : Option Nat) (m : String),
      handleRecord rc (.raised m) =
        { status := "retry", retry_count := some (rc.getD 0 + 1),
          error := some m }) ∧
    (∀ records, (processBatch records).length = records.length) := by
  refine ⟨fun rc res => ?_, fun rc => ⟨by simp [handleRecord], rfl⟩,
    fun rc m => rfl, fun records => by simp [processBatch]⟩
  cases res with
  | extractionFailed => simp [handleRecord]
  | decided d =>
      simp only [handleRecord]
      constructor
      · intro h
        by_cases hf : d.should_flag <;> simp [hf] at h
      · intro h; exact absurd h (by simp)
  | raised m => simp [handleRecord]

/-- C8: the sentiment intensity the aggregator consumes is an absolute value
(hence non-negative), and whenever the classifier probability and the
intensity are non-negative every scoring contribution is non-negative, so
total_score ≥ 0 and confidence_score = min(total_score/6, 1) lies in
[0, 1]. -/
theorem confidence_score_normalization_and_unit_interval
    (ml : MlResult) (dict : DictResult) (sent : SentimentResult)
    (stats : TextStats) (t : ℚ)
    (hp : 0 ≤ ml.profanity_probability) (hi : 0 ≤ sent.intensity) :
    (∀ compound pos neg neu : ℚ,
      0 ≤ (sentimentAnalysis compound pos neg neu).intensity) ∧
    0 ≤ totalScore ml dict sent stats ∧
    (calculateOverallAssessment ml dict sent stats t).confidence_score =
      min (totalScore ml dict sent stats / 6) 1 ∧
    0 ≤ (calculateOverallAssessment ml dict sent stats t).confidence_score ∧
    (calculateOverallAssessment ml dict sent stats t).confidence_score ≤ 1 := by
  have hscore : 0 ≤ totalScore ml dict sent stats := by
    have hmin : (0:ℚ) ≤ min ((dict.word_count : ℚ) * (3/2)) 3 :=
      le_min (by positivity) (by norm_num)
    have h1 : 0 ≤ (if ml.is_profane then ml.profanity_probability * 4 else 0) := by
      split_ifs
      · exact mul_nonneg hp (by norm_num)
      · exact le_refl 0
    have h2 : 0 ≤ (if dict.has_profanity then
        min ((dict.word_count : ℚ) * (3/2)) 3 else 0) := by
      split_ifs
      · exact hmin
      · exact le_refl 0
    have h3 : 0 ≤ (if sent.sentiment = "NEGATIVE" then
        (if sent.intensity > 3/5 then sent.intensity * 2
         else if sent.intensity > 3/10 then sent.intensity else 0)
       else 0) := by
      split_ifs
      · exact mul_nonneg hi (by norm_num)
      · exact hi
      · exact le_refl 0
      · exact le_refl 0
    have h4 : 0 ≤ (if stats.uppercase_ratio > 3/10 then (1:ℚ)/2 else 0) := by
      split_ifs <;> norm_num
    have h5 : 0 ≤ (if stats.exclamation_count > 3 then (3:ℚ)/10 else 0) := by
      split_ifs <;> norm_num
    unfold totalScore
    linarith [h1, h2, h3, h4, h5]
  have hc : (calculateOverallAssessment ml dict sent stats t).confidence_score =
      min (totalScore ml dict sent stats / 6) 1 := by
    simp [calculateOverallAssessment]
  refine ⟨fun compound pos neg neu => abs_nonneg _, hscore, hc, ?_, ?_⟩
  · rw [hc]
    exact le_min (div_nonneg hscore (by norm_num)) zero_le_one
  · rw [hc]
    exact min_le_right _ _

/-- Witness for C8's theorem at Example 3's inputs and the default
threshold. -/
theorem confidence_score_normalization_witness :
    0 ≤ totalScore exMl exDict exSent exStats ∧
    (calculateOverallAssessment exMl exDict exSent exStats 3).confidence_score ≤ 1 := by
  have h := confidence_score_normalization_and_unit_interval exMl exDict exSent
    exStats 3 (by norm_num [exMl, mlProfanityAnalysis])
    (show (0:ℚ) ≤ |(-(4/5) : ℚ)| from abs_nonneg _)
  exact ⟨h.2.1, h.2.2.2.2⟩


/-- C4 counterexample: with severity_threshold 4 (a legal configuration:
the threshold is read from the SEVERITY_THRESHOLD env var) and total_score
3.6 ∈ [3.5, 5), the aggregator yields LOW and should_flag = false, not the
claimed HIGH/FLAG — the severity bands are only assigned above the
threshold. -/
theorem severity_bands_counterexample :
    (7/2 ≤ totalScore cexMl exDict cexSent exStats ∧
      totalScore cexMl exDict cexSent exStats < 5) ∧
    (calculateOverallAssessment cexMl exDict cexSent exStats 4).severity_level = "LOW" ∧
    (calculateOverallAssessment cexMl exDict cexSent exStats 4).severity_level ≠ "HIGH" ∧
    (calculateOverallAssessment cexMl exDict cexSent exStats 4).should_flag = false := by
  refine ⟨by norm_num [totalScore, cexMl, cexSent, exDict, exStats,
    mlProfanityAnalysis, sentimentAnalysis, analyzeTextStats, DictResult.word_count],
    ?_, ?_, ?_⟩ <;>
  · norm_num [calculateOverallAssessment, totalScore, cexMl, cexSent, exDict, exStats,
      mlProfanityAnalysis, sentimentAnalysis, analyzeTextStats, DictResult.word_count,
      shouldUseAiAnalysis, flaggedMethods, primaryConcerns]
    try decide

/-- C4 amended: should_flag = (total_score ≥ severity_threshold) and
below-threshold inputs yield LOW/APPROVE/unflagged for every threshold (so a
threshold above 3.5 sends even scores in [3.5, 5) to LOW/APPROVE); whenever
the threshold is ≤ 3.5 (in particular the default 3) the claimed bands hold
— ≥5 CRITICAL/ESCALATE, [3.5,5) HIGH/FLAG, flagged below 3.5 MEDIUM/REVIEW —
and severity rank is monotonic non-decreasing in total_score for every
threshold. -/
theorem severity_bands_amended
    (ml : MlResult) (dict : DictResult) (sent : SentimentResult) (stats : TextStats)
    (ml' : MlResult) (dict' : DictResult) (sent' : SentimentResult) (stats' : TextStats)
    (t t' : ℚ) (ht : t ≤ 7/2)
    (hmono : totalScore ml dict sent stats ≤ totalScore ml' dict' sent' stats') :
    ((calculateOverallAssessment ml dict sent stats t').should_flag =
      decide (totalScore ml dict sent stats ≥ t')) ∧
    (totalScore ml dict sent stats < t' →
      (calculateOverallAssessment ml dict sent stats t').severity_level = "LOW" ∧
      (calculateOverallAssessment ml dict sent stats t').recommendation = "APPROVE" ∧
      (calculateOverallAssessment ml dict sent stats t').should_flag = false) ∧
    (totalScore ml dict sent stats ≥ 5 →
      (calculateOverallAssessment ml dict sent stats t).severity_level = "CRITICAL" ∧
      (calculateOverallAssessment ml dict sent stats t).recommendation = "ESCALATE") ∧
    (7/2 ≤ totalScore ml dict sent stats ∧ totalScore ml dict sent stats < 5 →
      (calculateOverallAssessment ml dict sent stats t).severity_level = "HIGH" ∧
      (calculateOverallAssessment ml dict sent stats t).recommendation = "FLAG") ∧
    (t ≤ totalScore ml dict sent stats ∧ totalScore ml dict sent stats < 7/2 →
      (calculateOverallAssessment ml dict sent stats t).severity_level = "MEDIUM" ∧
      (calculateOverallAssessment ml dict sent stats t).recommendation = "REVIEW") ∧
    severityRank (calculateOverallAssessment ml dict sent stats t').severity_level ≤
      severityRank (calculateOverallAssessment ml' dict' sent' stats' t').severity_level := by
  have hsev : ∀ (m : MlResult) (d : DictResult) (se : SentimentResult)
      (st : TextStats) (th : ℚ),
      (calculateOverallAssessment m d se st th).severity_level =
        (if totalScore m d se st ≥ th then
          (if totalScore m d se st ≥ 5 then "CRITICAL"
           else if totalScore m d se st ≥ 7/2 then "HIGH" else "MEDIUM")
         else "LOW") := fun m d se st th => by simp [calculateOverallAssessment]
  have hrec : ∀ (m : MlResult) (d : DictResult) (se : SentimentResult)
      (st : TextStats) (th : ℚ),
      (calculateOverallAssessment m d se st th).recommendation =
        (if totalScore m d se st ≥ th then
          (if totalScore m d se st ≥ 5 then "ESCALATE"
           else if totalScore m d se st ≥ 7/2 then "FLAG" else "REVIEW")
         else "APPROVE") := fun m d se st th => by simp [calculateOverallAssessment]
  have hfl : ∀ th : ℚ,
      (calculateOverallAssessment ml dict sent stats th).should_flag =
        decide (totalScore ml dict sent stats ≥ th) := fun th => by
    simp [calculateOverallAssessment]
  refine ⟨hfl t', ?_, ?_, ?_, ?_, ?_⟩
  · intro h
    refine ⟨?_, ?_, ?_⟩
    · rw [hsev]
      split_ifs <;> first | rfl | (exfalso; linarith)
    · rw [hrec]
      split_ifs <;> first | rfl | (exfalso; linarith)
    · rw [hfl t', decide_eq_false_iff_not]
      exact not_le.mpr h
  · intro h5
    rw [hsev, hrec]
    split_ifs <;> first | exact ⟨rfl, rfl⟩ | (exfalso; linarith)
  · intro h
    rw [hsev, hrec]
    split_ifs <;> first | exact ⟨rfl, rfl⟩ | (exfalso; linarith [h.1, h.2])
  · intro h
    rw [hsev, hrec]
    split_ifs <;> first | exact ⟨rfl, rfl⟩ | (exfalso; linarith [h.1, h.2])
  · rw [hsev ml dict sent stats t', hsev ml' dict' sent' stats' t']
    split_ifs <;> first | decide | (exfalso; linarith)

/-- Witness for the amended C4 theorem at Example 3's inputs, with the band
threshold at the default 3 and the every-threshold clauses exercised at the
above-3.5 threshold 4. -/
theorem severity_bands_amended_witness :
    ((calculateOverallAssessment exMl exDict exSent exStats 4).should_flag =
      decide (totalScore exMl exDict exSent exStats ≥ 4)) ∧
    (totalScore exMl exDict exSent exStats < 4 →
      (calculateOverallAssessment exMl exDict exSent exStats 4).severity_level = "LOW" ∧
      (calculateOverallAssessment exMl exDict exSent exStats 4).recommendation = "APPROVE" ∧
      (calculateOverallAssessment exMl exDict exSent exStats 4).should_flag = false) ∧
    (3 ≤ totalScore exMl exDict exSent exStats ∧
        totalScore exMl exDict exSent exStats < 7/2 →
      (calculateOverallAssessment exMl exDict exSent exStats 3).severity_level = "MEDIUM" ∧
      (calculateOverallAssessment exMl exDict exSent exStats 3).recommendation = "REVIEW") := by
  have h := severity_bands_amended exMl exDict exSent exStats exMl exDict exSent
    exStats 3 4 (by norm_num) le_rfl
  exact ⟨h.1, h.2.1, h.2.2.2.2.1⟩
